import Mathlib

/-!
Verification of the hmm-notes core: the base64url codec and note cipher
(src/lib/crypto.ts), the WebAuthn assertion verifier (src/lib/webauthn.ts),
the IndexedDB backup import/validation (src/lib/indexeddb.ts together with
the import flow of src/app/page.tsx), and the relay session store
(src/pages/api/session.ts and src/pages/api/session/[id].ts).

Data is modelled shallowly: byte buffers (`Uint8Array`/`ArrayBuffer`) are
`List Nat` with every element below 256, JavaScript strings are `String`,
`Map` objects are association lists, and `Date.now()` timestamps are `Nat`
milliseconds passed explicitly.  Web Crypto primitives (AES-GCM, PBKDF2,
SHA-256, ECDSA) and the platform UTF-8 codec are external to the repository
and appear as explicit function parameters; their documented contracts
(round trip, authentication) appear as hypotheses where a property needs
them.  Functions of the repository itself are translated operation by
operation.
-/

namespace HmmNotes

/-! ## base64url (src/lib/crypto.ts: base64urlEncode / base64urlDecode)

`base64urlEncode` is `btoa` followed by replacing `+` with `-`, `/` with
`_`, and stripping `=` padding.  `base64urlDecode` re-adds the padding,
maps `-`/`_` back to `+`/`/`, and runs `atob`.  `atob` is modelled as the
forgiving base64 decoder: length must be a multiple of four, at most two
trailing padding characters, all remaining characters from the standard
alphabet; a final chunk of two or three characters contributes one or two
bytes. -/

/-- The standard base64 alphabet used by `btoa`/`atob`. -/
def base64Chars : List Char :=
  ['A', 'B', 'C', 'D', 'E', 'F', 'G', 'H', 'I', 'J', 'K', 'L', 'M',
   'N', 'O', 'P', 'Q', 'R', 'S', 'T', 'U', 'V', 'W', 'X', 'Y', 'Z',
   'a', 'b', 'c', 'd', 'e', 'f', 'g', 'h', 'i', 'j', 'k', 'l', 'm',
   'n', 'o', 'p', 'q', 'r', 's', 't', 'u', 'v', 'w', 'x', 'y', 'z',
   '0', '1', '2', '3', '4', '5', '6', '7', '8', '9', '+', '/']

/-- Character for a six-bit group. -/
def sextetChar (n : Nat) : Char := base64Chars.getD n 'A'

/-- The encode-side replacement step of `base64urlEncode`: plus becomes
minus, slash becomes underscore. -/
def toUrlChar (c : Char) : Char :=
  if c = '+' then '-' else if c = '_' then '_' else if c = '/' then '_' else c

/-- The decode-side replacement step of `base64urlDecode`: minus becomes
plus, underscore becomes slash. -/
def fromUrlChar (c : Char) : Char :=
  if c = '-' then '+' else if c = '_' then '/' else c

/-- Index of a character in the standard base64 alphabet (`atob` rejects
characters outside it). -/
def b64CharIndex (c : Char) : Option Nat :=
  base64Chars.findIdx? (fun x => x == c)

/-- Split bytes into six-bit groups, as `btoa` does (without padding,
which `base64urlEncode` strips again). -/
def encodeSextets : List Nat → List Nat
  | [] => []
  | [a] => [a / 4, a % 4 * 16]
  | [a, b] => [a / 4, a % 4 * 16 + b / 16, b % 16 * 4]
  | a :: b :: c :: rest =>
      a / 4 :: (a % 4 * 16 + b / 16) :: (b % 16 * 4 + c / 64) :: c % 64 ::
        encodeSextets rest

/-- Reassemble bytes from six-bit groups; a trailing group of one sextet is
invalid, a group of two or three yields one or two bytes. -/
def decodeSextetsToBytes : List Nat → Option (List Nat)
  | [] => some []
  | [_] => none
  | [a, b] => some [a * 4 + b / 16]
  | [a, b, c] => some [a * 4 + b / 16, b % 16 * 16 + c / 4]
  | a :: b :: c :: d :: rest =>
      (decodeSextetsToBytes rest).map
        (fun bs => (a * 4 + b / 16) :: (b % 16 * 16 + c / 4) ::
          (c % 4 * 64 + d) :: bs)

/-- Decode a run of base64 characters to sextets, failing on a character
outside the alphabet (including an interior `=`). -/
def decodeB64Chars : List Char → Option (List Nat)
  | [] => some []
  | c :: cs =>
      match b64CharIndex c, decodeB64Chars cs with
      | some v, some vs => some (v :: vs)
      | _, _ => none

/-- Model of the `atob` builtin on an explicit character list. -/
def atobModel (cs : List Char) : Option (List Nat) :=
  if cs.length % 4 ≠ 0 then none
  else
    let pads := (cs.reverse.takeWhile (fun c => c == '=')).length
    if 2 < pads then none
    else
      match decodeB64Chars (cs.take (cs.length - pads)) with
      | none => none
      | some sextets => decodeSextetsToBytes sextets

/-- `base64urlEncode` from src/lib/crypto.ts: `btoa` of the byte string,
then URL-safe replacements and padding removal. -/
def base64urlEncode (bytes : List Nat) : String :=
  String.mk (((encodeSextets bytes).map sextetChar).map toUrlChar)

/-- `base64urlDecode` from src/lib/crypto.ts: re-add padding, undo the
URL-safe replacements, run `atob`.  Returns `none` where `atob` throws. -/
def base64urlDecode (s : String) : Option (List Nat) :=
  atobModel (s.data.map fromUrlChar ++
    List.replicate ((4 - s.length % 4) % 4) '=')

/-! ### Round trip of the base64url codec -/

theorem b64_char_roundtrip :
    ∀ n : Fin 64,
      b64CharIndex (fromUrlChar (toUrlChar (sextetChar n.val))) = some n.val := by
  decide

theorem sextetChar_ne_eq (n : Nat) : ¬ sextetChar n = '=' := by
  by_cases hn : n < 64
  · have hall : ∀ m : Fin 64, ¬ sextetChar m.val = '=' := by decide
    exact hall ⟨n, hn⟩
  · have hlen : base64Chars.length ≤ n := by
      have : base64Chars.length = 64 := by decide
      omega
    unfold sextetChar
    rw [List.getD_eq_default _ _ hlen]
    decide

theorem toUrlChar_ne_eq (c : Char) (h : ¬ c = '=') : ¬ toUrlChar c = '=' := by
  unfold toUrlChar
  split
  · decide
  · split
    · decide
    · split
      · decide
      · exact h

theorem fromUrlChar_ne_eq (c : Char) (h : ¬ c = '=') : ¬ fromUrlChar c = '=' := by
  unfold fromUrlChar
  split
  · decide
  · split
    · decide
    · exact h

theorem encodeSextets_lt (bs : List Nat) (h : ∀ b ∈ bs, b < 256) :
    ∀ n ∈ encodeSextets bs, n < 64 := by
  induction bs using encodeSextets.induct with
  | case1 => simp [encodeSextets]
  | case2 a =>
      have ha := h a (by simp)
      simp only [encodeSextets, List.mem_cons, List.not_mem_nil, or_false]
      rintro n (rfl | rfl) <;> omega
  | case3 a b =>
      have ha := h a (by simp)
      have hb := h b (by simp)
      simp only [encodeSextets, List.mem_cons, List.not_mem_nil, or_false]
      rintro n (rfl | rfl | rfl) <;> omega
  | case4 a b c rest ih =>
      have ha := h a (by simp)
      have hb := h b (by simp)
      have hc := h c (by simp)
      have hrest : ∀ x ∈ rest, x < 256 := fun x hx => h x (by simp [hx])
      simp only [encodeSextets, List.mem_cons]
      rintro n (rfl | rfl | rfl | rfl | hn)
      · omega
      · omega
      · omega
      · omega
      · exact ih hrest n hn

theorem encodeSextets_length_mod (bs : List Nat) :
    (encodeSextets bs).length % 4 = 0 ∨ (encodeSextets bs).length % 4 = 2 ∨
      (encodeSextets bs).length % 4 = 3 := by
  induction bs using encodeSextets.induct with
  | case1 => simp [encodeSextets]
  | case2 a => simp [encodeSextets]
  | case3 a b => simp [encodeSextets]
  | case4 a b c rest ih =>
      simp only [encodeSextets, List.length_cons]
      omega

theorem chunk_roundtrip (a b c : Nat) (ha : a < 256) (hb : b < 256)
    (hc : c < 256) :
    a / 4 * 4 + (a % 4 * 16 + b / 16) / 16 = a ∧
    (a % 4 * 16 + b / 16) % 16 * 16 + (b % 16 * 4 + c / 64) / 4 = b ∧
    (b % 16 * 4 + c / 64) % 4 * 64 + c % 64 = c := by
  have h1 : (a % 4 * 16 + b / 16) / 16 = a % 4 := by
    rw [Nat.mul_comm (a % 4) 16, Nat.mul_add_div (by norm_num),
      Nat.div_div_eq_div_mul, Nat.div_eq_of_lt (by omega : b < 16 * 16)]
    omega
  have h2a : (a % 4 * 16 + b / 16) % 16 = b / 16 := by
    rw [Nat.mul_comm (a % 4) 16, Nat.mul_add_mod]
    exact Nat.mod_eq_of_lt (by omega)
  have h2b : (b % 16 * 4 + c / 64) / 4 = b % 16 := by
    rw [Nat.mul_comm (b % 16) 4, Nat.mul_add_div (by norm_num),
      Nat.div_div_eq_div_mul, Nat.div_eq_of_lt (by omega : c < 64 * 4)]
    omega
  have h3a : (b % 16 * 4 + c / 64) % 4 = c / 64 := by
    rw [Nat.mul_comm (b % 16) 4, Nat.mul_add_mod]
    exact Nat.mod_eq_of_lt (by omega)
  rw [h1, h2a, h2b, h3a]
  omega

theorem decode_encodeSextets (bs : List Nat) (h : ∀ b ∈ bs, b < 256) :
    decodeSextetsToBytes (encodeSextets bs) = some bs := by
  induction bs using encodeSextets.induct with
  | case1 => simp [encodeSextets, decodeSextetsToBytes]
  | case2 a =>
      have ha := h a (by simp)
      simp only [encodeSextets, decodeSextetsToBytes, Option.some.injEq,
        List.cons.injEq, and_true]
      omega
  | case3 a b =>
      have ha := h a (by simp)
      have hb := h b (by simp)
      simp only [encodeSextets, decodeSextetsToBytes, Option.some.injEq,
        List.cons.injEq, and_true]
      constructor <;> omega
  | case4 a b c rest ih =>
      have ha := h a (by simp)
      have hb := h b (by simp)
      have hc := h c (by simp)
      have hrest : ∀ x ∈ rest, x < 256 := fun x hx => h x (by simp [hx])
      obtain ⟨h1, h2, h3⟩ := chunk_roundtrip a b c ha hb hc
      have hstep : decodeSextetsToBytes (encodeSextets (a :: b :: c :: rest)) =
          (decodeSextetsToBytes (encodeSextets rest)).map
            (fun bs => (a / 4 * 4 + (a % 4 * 16 + b / 16) / 16) ::
              ((a % 4 * 16 + b / 16) % 16 * 16 + (b % 16 * 4 + c / 64) / 4) ::
              ((b % 16 * 4 + c / 64) % 4 * 64 + c % 64) :: bs) := rfl
      rw [hstep, ih hrest, Option.map_some', h1, h2, h3]

theorem decodeB64Chars_map (ss : List Nat) (h : ∀ n ∈ ss, n < 64) :
    decodeB64Chars (ss.map (fun n => fromUrlChar (toUrlChar (sextetChar n)))) =
      some ss := by
  induction ss with
  | nil => simp [decodeB64Chars]
  | cons n rest ih =>
      have hn : n < 64 := h n (by simp)
      have hidx := b64_char_roundtrip ⟨n, hn⟩
      simp only [List.map_cons, decodeB64Chars, hidx,
        ih (fun x hx => h x (by simp [hx]))]

theorem takeWhile_replicate_append (p : Nat) (ys : List Char)
    (h : ∀ c ∈ ys, ¬ c = '=') :
    (List.replicate p '=' ++ ys).takeWhile (fun c => c == '=') =
      List.replicate p '=' := by
  induction p with
  | zero =>
      cases ys with
      | nil => simp
      | cons y ys =>
          have hy : (y == '=') = false :=
            beq_eq_false_iff_ne.mpr (h y (by simp))
          simp [List.takeWhile_cons, hy]
  | succ p ih =>
      simp only [List.replicate_succ, List.cons_append, List.takeWhile_cons]
      simp [ih]

theorem base64urlDecode_encode (bs : List Nat) (h : ∀ b ∈ bs, b < 256) :
    base64urlDecode (base64urlEncode bs) = some bs := by
  have hlt := encodeSextets_lt bs h
  have hmod := encodeSextets_length_mod bs
  set ss := encodeSextets bs with hss
  set L := ss.length with hL
  have hdata : (base64urlEncode bs).data =
      (ss.map sextetChar).map toUrlChar := rfl
  have hlen : (base64urlEncode bs).length = L := by
    simp [base64urlEncode, String.length, hL]
  set p := (4 - L % 4) % 4 with hp
  have hbody : (base64urlEncode bs).data.map fromUrlChar =
      ss.map (fun n => fromUrlChar (toUrlChar (sextetChar n))) := by
    rw [hdata]
    simp [List.map_map, Function.comp]
  have hbodylen : ((base64urlEncode bs).data.map fromUrlChar).length = L := by
    rw [hbody]; simp [hL]
  have hnoeq : ∀ c ∈ (base64urlEncode bs).data.map fromUrlChar, ¬ c = '=' := by
    intro c hc
    rw [hbody] at hc
    obtain ⟨n, _, rfl⟩ := List.mem_map.mp hc
    exact fromUrlChar_ne_eq _ (toUrlChar_ne_eq _ (sextetChar_ne_eq n))
  unfold base64urlDecode
  rw [hlen]
  set cs := (base64urlEncode bs).data.map fromUrlChar ++
    List.replicate p '=' with hcs
  have hcslen : cs.length = L + p := by
    simp [hcs, hbodylen]
  have htot : cs.length % 4 = 0 := by
    rw [hcslen, hp]; omega
  have hpads : (cs.reverse.takeWhile (fun c => c == '=')).length = p := by
    rw [hcs, List.reverse_append, List.reverse_replicate]
    rw [takeWhile_replicate_append p _
      (fun c hc => hnoeq c (List.mem_reverse.mp hc))]
    simp
  have hple : p ≤ 2 := by
    rw [hp]; omega
  have htake : cs.take (cs.length - p) =
      (base64urlEncode bs).data.map fromUrlChar := by
    rw [hcslen, Nat.add_sub_cancel, hcs, ← hbodylen, List.take_left]
  unfold atobModel
  rw [htot]
  simp only [ne_eq, not_true_eq_false, if_false, hpads]
  rw [if_neg (by omega)]
  rw [htake, hbody, decodeB64Chars_map ss hlt]
  exact decode_encodeSextets bs h

/-! ## Note cipher and key vault (src/lib/crypto.ts)

`encryptText`, `decryptText`, `wrapKey`, `unwrapKey` and
`deriveKeyFromPassphrase` are thin wrappers over Web Crypto AES-GCM and
PBKDF2 calls.  The primitives appear as explicit parameters: `K` is the
type of `CryptoKey` handles, `aesGcmEncrypt`/`aesGcmDecrypt` the AES-GCM
cipher (`aesGcmDecrypt` returns `none` where `crypto.subtle.decrypt`
rejects), `utf8Encode`/`utf8Decode` the `TextEncoder`/`TextDecoder` pair,
and `pbkdf2Sha256` the PBKDF2 derivation.  The fresh random `iv` that
`generateRandomBytes` produces inside `encryptText` and `wrapKey` is
passed explicitly, which also makes it visible that
`deriveKeyFromPassphrase` consumes no randomness at all. -/

/-- Result type of `encryptText`: base64url ciphertext and iv strings. -/
structure EncryptedText where
  ciphertext : String
  iv : String
deriving DecidableEq

/-- `encryptText` from src/lib/crypto.ts, with the random 12-byte iv made
an explicit argument. -/
def encryptText {K : Type} (aesGcmEncrypt : K → List Nat → List Nat → List Nat)
    (utf8Encode : String → List Nat)
    (plaintext : String) (masterKey : K) (iv : List Nat) : EncryptedText :=
  { ciphertext :=
      base64urlEncode (aesGcmEncrypt masterKey iv (utf8Encode plaintext)),
    iv := base64urlEncode iv }

/-- `decryptText` from src/lib/crypto.ts.  `none` models the places the
source throws: a failed base64url decode or an AES-GCM tag mismatch. -/
def decryptText {K : Type} (aesGcmDecrypt : K → List Nat → List Nat → Option (List Nat))
    (utf8Decode : List Nat → String)
    (ciphertext iv : String) (masterKey : K) : Option String :=
  match base64urlDecode iv, base64urlDecode ciphertext with
  | some ivBytes, some ctBytes =>
      (aesGcmDecrypt masterKey ivBytes ctBytes).map utf8Decode
  | _, _ => none

/-- Result type of `wrapKey`: wrapped-key bytes and the iv used. -/
structure WrappedKey where
  wrappedKey : List Nat
  iv : List Nat
deriving DecidableEq

/-- `wrapKey` from src/lib/crypto.ts: AES-GCM over the raw master-key
bytes under the wrapping key, with the random iv explicit. -/
def wrapKey {K : Type} (aesGcmEncrypt : K → List Nat → List Nat → List Nat)
    (masterKeyRaw : List Nat) (wrappingKey : K) (iv : List Nat) : WrappedKey :=
  { wrappedKey := aesGcmEncrypt wrappingKey iv masterKeyRaw, iv := iv }

/-- `unwrapKey` from src/lib/crypto.ts: AES-GCM decryption of the wrapped
bytes; `none` models the `AuthenticationError` rejection of
`crypto.subtle.unwrapKey` on a tag mismatch. -/
def unwrapKey {K : Type} (aesGcmDecrypt : K → List Nat → List Nat → Option (List Nat))
    (wrappedKey : List Nat) (wrappingKey : K) (iv : List Nat) :
    Option (List Nat) :=
  aesGcmDecrypt wrappingKey iv wrappedKey

/-- `deriveKeyFromPassphrase` from src/lib/crypto.ts: PBKDF2-SHA256 over
the UTF-8 bytes of the passphrase.  It is a pure function of
`(passphrase, salt, iterations)`: the translation needs no randomness
argument, unlike `encryptText` and `wrapKey`. -/
def deriveKeyFromPassphrase {K : Type} (pbkdf2Sha256 : List Nat → List Nat → Nat → K)
    (utf8Encode : String → List Nat)
    (passphrase : String) (salt : List Nat) (iterations : Nat) : K :=
  pbkdf2Sha256 (utf8Encode passphrase) salt iterations

/-! ### A concrete encoder/decoder pair for witnesses

A fixed-width three-bytes-per-character string codec.  It serves as a
concrete stand-in for the platform `TextEncoder`/`TextDecoder` pair when a
witness has to discharge the round-trip hypotheses of the theorems below
at an explicit instance. -/

def charCodec3Enc : List Char → List Nat
  | [] => []
  | c :: cs => c.toNat / 65536 :: c.toNat / 256 % 256 :: c.toNat % 256 ::
      charCodec3Enc cs

def charCodec3Dec : List Nat → List Char
  | a :: b :: c :: rest => Char.ofNat (a * 65536 + b * 256 + c) ::
      charCodec3Dec rest
  | _ => []

def strCodec3Enc (s : String) : List Nat := charCodec3Enc s.data

def strCodec3Dec (bs : List Nat) : String := String.mk (charCodec3Dec bs)

theorem char_toNat_lt (c : Char) : c.toNat < 1114112 := by
  have h := c.valid
  rcases h with h | h
  · have : c.val.toNat < 55296 := h
    simp only [Char.toNat]
    omega
  · have : c.val.toNat < 1114112 := h.2
    simp only [Char.toNat]
    omega

theorem charCodec3_roundtrip (cs : List Char) :
    charCodec3Dec (charCodec3Enc cs) = cs := by
  induction cs with
  | nil => rfl
  | cons c cs ih =>
      have hlt := char_toNat_lt c
      have harith : c.toNat / 65536 * 65536 + c.toNat / 256 % 256 * 256 +
          c.toNat % 256 = c.toNat := by omega
      simp only [charCodec3Enc, charCodec3Dec, ih, harith, Char.ofNat_toNat]

theorem strCodec3_roundtrip (s : String) : strCodec3Dec (strCodec3Enc s) = s := by
  cases s with
  | mk data => simp [strCodec3Enc, strCodec3Dec, charCodec3_roundtrip]

theorem charCodec3Enc_lt (cs : List Char) : ∀ b ∈ charCodec3Enc cs, b < 256 := by
  induction cs with
  | nil => simp [charCodec3Enc]
  | cons c cs ih =>
      have hlt := char_toNat_lt c
      simp only [charCodec3Enc, List.mem_cons]
      rintro b (rfl | rfl | rfl | hb)
      · omega
      · omega
      · omega
      · exact ih b hb

/-! ### Claims C5, C6, C9 -/

/-- C5: for every plaintext string `m` and AES-GCM key `k`, decrypting the
ciphertext and iv produced by `encryptText m k` with the same key `k`
returns exactly `m`, given the AEAD round-trip contract of the AES-GCM
primitive, the round-trip contract of the platform UTF-8 codec, and that
both primitives produce byte values (below 256). -/
theorem encryptText_decryptText_roundtrip {K : Type}
    (aesGcmEncrypt : K → List Nat → List Nat → List Nat)
    (aesGcmDecrypt : K → List Nat → List Nat → Option (List Nat))
    (utf8Encode : String → List Nat) (utf8Decode : List Nat → String)
    (hAead : ∀ k iv m, aesGcmDecrypt k iv (aesGcmEncrypt k iv m) = some m)
    (hUtf8 : ∀ s, utf8Decode (utf8Encode s) = s)
    (hEncBytes : ∀ k iv m, (∀ b ∈ m, b < 256) →
      ∀ b ∈ aesGcmEncrypt k iv m, b < 256)
    (hUtf8Bytes : ∀ s, ∀ b ∈ utf8Encode s, b < 256)
    (m : String) (k : K) (iv : List Nat) (hiv : ∀ b ∈ iv, b < 256) :
    decryptText aesGcmDecrypt utf8Decode
      (encryptText aesGcmEncrypt utf8Encode m k iv).ciphertext
      (encryptText aesGcmEncrypt utf8Encode m k iv).iv k = some m := by
  have hct : ∀ b ∈ aesGcmEncrypt k iv (utf8Encode m), b < 256 :=
    hEncBytes k iv (utf8Encode m) (hUtf8Bytes m)
  unfold decryptText encryptText
  simp only
  rw [base64urlDecode_encode iv hiv, base64urlDecode_encode _ hct]
  show (aesGcmDecrypt k iv (aesGcmEncrypt k iv (utf8Encode m))).map utf8Decode =
    some m
  rw [hAead, Option.map_some', hUtf8]

/-- C5 witness: the round-trip theorem applied at a concrete instance
(identity cipher over byte lists, the three-byte string codec). -/
theorem encryptText_decryptText_roundtrip_witness :
    decryptText (K := Unit) (fun _ _ c => some c) strCodec3Dec
      (encryptText (fun _ _ m => m) strCodec3Enc " hello" () [1, 2, 3]).ciphertext
      (encryptText (fun _ _ m => m) strCodec3Enc " hello" () [1, 2, 3]).iv () =
      some " hello" :=
  encryptText_decryptText_roundtrip (fun _ _ m => m) (fun _ _ c => some c)
    strCodec3Enc strCodec3Dec
    (fun _ _ _ => rfl) strCodec3_roundtrip
    (fun _ _ _ h => h) (fun s => charCodec3Enc_lt s.data)
    " hello" () [1, 2, 3] (by intro b hb; fin_cases hb <;> omega)

/-- C6: unwrapping the output of `wrapKey` with the same wrapping key
recovers the master key bytes exactly, and unwrapping with any different
wrapping key fails (returns `none`, the model of `AuthenticationError`),
given the AES-GCM round-trip and authentication contracts. -/
theorem wrapKey_unwrapKey_roundtrip_auth {K : Type}
    (aesGcmEncrypt : K → List Nat → List Nat → List Nat)
    (aesGcmDecrypt : K → List Nat → List Nat → Option (List Nat))
    (hAead : ∀ k iv m, aesGcmDecrypt k iv (aesGcmEncrypt k iv m) = some m)
    (hAuth : ∀ k k' iv m, k' ≠ k →
      aesGcmDecrypt k' iv (aesGcmEncrypt k iv m) = none)
    (masterKeyRaw : List Nat) (wk wk' : K) (iv : List Nat) (hne : wk' ≠ wk) :
    unwrapKey aesGcmDecrypt
      (wrapKey aesGcmEncrypt masterKeyRaw wk iv).wrappedKey wk
      (wrapKey aesGcmEncrypt masterKeyRaw wk iv).iv = some masterKeyRaw ∧
    unwrapKey aesGcmDecrypt
      (wrapKey aesGcmEncrypt masterKeyRaw wk iv).wrappedKey wk'
      (wrapKey aesGcmEncrypt masterKeyRaw wk iv).iv = none := by
  constructor
  · exact hAead wk iv masterKeyRaw
  · exact hAuth wk wk' iv masterKeyRaw hne

/-- A key-tagging cipher over `Fin 256` key identifiers, used to witness
the AES-GCM contracts at a concrete instance. -/
def tagCipherEnc (k : Fin 256) (iv : List Nat) (m : List Nat) : List Nat :=
  k.val :: m ++ iv.take 0

/-- Decryption for `tagCipherEnc`: succeeds only under the tagging key. -/
def tagCipherDec (k : Fin 256) (iv : List Nat) : List Nat → Option (List Nat)
  | [] => none
  | t :: m => if t = k.val ∧ iv.take 0 = [] then some m else none

theorem tagCipher_roundtrip (k : Fin 256) (iv m : List Nat) :
    tagCipherDec k iv (tagCipherEnc k iv m) = some m := by
  simp [tagCipherEnc, tagCipherDec]

theorem tagCipher_auth (k k' : Fin 256) (iv m : List Nat) (h : k' ≠ k) :
    tagCipherDec k' iv (tagCipherEnc k iv m) = none := by
  have : ¬ k.val = k'.val := fun hv => h (Fin.ext hv.symm)
  simp [tagCipherEnc, tagCipherDec, this]

/-- C6 witness: the wrap/unwrap theorem applied at a concrete instance of
the tagging cipher, with wrapping keys 0 and 1. -/
theorem wrapKey_unwrapKey_roundtrip_auth_witness :
    unwrapKey tagCipherDec
      (wrapKey tagCipherEnc [9, 8] 0 [7]).wrappedKey 0
      (wrapKey tagCipherEnc [9, 8] 0 [7]).iv = some [9, 8] ∧
    unwrapKey tagCipherDec
      (wrapKey tagCipherEnc [9, 8] 0 [7]).wrappedKey 1
      (wrapKey tagCipherEnc [9, 8] 0 [7]).iv = none :=
  wrapKey_unwrapKey_roundtrip_auth tagCipherEnc tagCipherDec
    tagCipher_roundtrip (fun k k' iv m h => tagCipher_auth k k' iv m h)
    [9, 8] 0 1 [7] (by decide)

/-- C9: `deriveKeyFromPassphrase` is deterministic — two calls with
identical passphrase, salt and iteration count yield the identical key.
The embedding threads no randomness through the derivation (in contrast
to `encryptText` and `wrapKey`, whose fresh ivs are explicit inputs). -/
theorem deriveKeyFromPassphrase_deterministic {K : Type}
    (pbkdf2Sha256 : List Nat → List Nat → Nat → K)
    (utf8Encode : String → List Nat)
    (p₁ p₂ : String) (s₁ s₂ : List Nat) (i₁ i₂ : Nat)
    (hp : p₁ = p₂) (hs : s₁ = s₂) (hi : i₁ = i₂) :
    deriveKeyFromPassphrase pbkdf2Sha256 utf8Encode p₁ s₁ i₁ =
      deriveKeyFromPassphrase pbkdf2Sha256 utf8Encode p₂ s₂ i₂ := by
  rw [hp, hs, hi]

/-- C9 witness: determinism applied at a concrete PBKDF2 instance. -/
theorem deriveKeyFromPassphrase_deterministic_witness :
    deriveKeyFromPassphrase (fun pw s i => pw ++ s ++ [i]) strCodec3Enc
      " pw" [1, 2] 200000 =
    deriveKeyFromPassphrase (fun pw s i => pw ++ s ++ [i]) strCodec3Enc
      " pw" [1, 2] 200000 :=
  deriveKeyFromPassphrase_deterministic (fun pw s i => pw ++ s ++ [i])
    strCodec3Enc " pw" " pw" [1, 2] [1, 2] 200000 200000 rfl rfl rfl

/-! ## Relay session store (src/pages/api/session.ts, session/[id].ts)

The `Map<string, Session>` is an association list in insertion order;
`Map.get`, `Map.set` (replace in place or append) and `Map.delete` are
modelled below.  `Date.now()` is an explicit `now : Nat` argument.
Request-body and query values that may be absent or non-strings are
`Option String`; JavaScript string truthiness (`!x` rejects both a missing
value and the empty string) is `strTruthy`. -/

/-- A relay session record. -/
structure Session where
  challenge : String
  assertion : Option String
  createdAt : Nat
  expiresAt : Nat
deriving DecidableEq

/-- `Map.get`. -/
def mapGet {α : Type} (store : List (String × α)) (k : String) : Option α :=
  (store.find? (fun e => e.1 == k)).map (fun e => e.2)

/-- `Map.set`: replace the entry in place if the key exists, append
otherwise. -/
def mapSet {α : Type} (store : List (String × α)) (k : String) (v : α) :
    List (String × α) :=
  if store.any (fun e => e.1 == k) then
    store.map (fun e => if e.1 == k then (k, v) else e)
  else store ++ [(k, v)]

/-- `Map.delete`. -/
def mapDelete {α : Type} (store : List (String × α)) (k : String) :
    List (String × α) :=
  store.filter (fun e => ¬ e.1 == k)

/-- `Map.size`. -/
def mapSize {α : Type} (store : List (String × α)) : Nat := store.length

/-- JavaScript truthiness of an optional string: `undefined`, `null` and
the empty string are falsy. -/
def strTruthy : Option String → Bool
  | none => false
  | some s => ¬ s == ""

/-- The session map. -/
abbrev SessionStore := List (String × Session)

/-- `SESSION_TTL` (milliseconds) from src/pages/api/session.ts. -/
def SESSION_TTL : Nat := 120 * 1000

/-- `MAX_SESSIONS` from src/pages/api/session.ts. -/
def MAX_SESSIONS : Nat := 1000

/-- Outcome of the create-session endpoint. -/
inductive CreateResult where
  | badRequest (error : String)
  | serverBusy (error : String)
  | ok (expiresIn : Nat)
deriving DecidableEq

/-- HTTP status of a create-session outcome, as set by the handler. -/
def CreateResult.status : CreateResult → Nat
  | .badRequest _ => 400
  | .serverBusy _ => 503
  | .ok _ => 200

/-- The POST handler of src/pages/api/session.ts: validate the body, check
the session limit against `sessions.size`, then insert the new session
with `expiresAt = now + SESSION_TTL` and a null assertion. -/
def createSessionHandler (store : SessionStore)
    (sessionId challenge : Option String) (now : Nat) :
    CreateResult × SessionStore :=
  if ¬ strTruthy sessionId then (.badRequest "Invalid sessionId", store)
  else if ¬ strTruthy challenge then (.badRequest "Invalid challenge", store)
  else if MAX_SESSIONS ≤ mapSize store then
    (.serverBusy "Server busy, try again", store)
  else
    (.ok (SESSION_TTL / 1000),
      mapSet store (sessionId.getD "")
        { challenge := challenge.getD "", assertion := none,
          createdAt := now, expiresAt := now + SESSION_TTL })

/-- The body of the cleanup `setInterval` in src/pages/api/session.ts:
delete every session with `now > expiresAt`. -/
def sweepExpiredSessions (store : SessionStore) (now : Nat) : SessionStore :=
  store.filter (fun e => ¬ e.2.expiresAt < now)

/-- The number of live (non-expired) sessions.  This follows the words of
the specification ("number of live (non-expired) sessions"), for
comparison with what `createSessionHandler` actually checks. -/
def liveSessionCount (store : SessionStore) (now : Nat) : Nat :=
  (store.filter (fun e => ¬ e.2.expiresAt < now)).length

/-- Outcome of the poll-session (GET) endpoint. -/
inductive GetResult where
  | badRequest (error : String)
  | notFound (error : String)
  | ok (assertion : Option String) (expiresAt : Nat) (challenge : String)
deriving DecidableEq

/-- HTTP status of a poll outcome. -/
def GetResult.status : GetResult → Nat
  | .badRequest _ => 400
  | .notFound _ => 404
  | .ok _ _ _ => 200

/-- The GET branch of src/pages/api/session/[id].ts: absent id is 400,
missing session is 404, an expired session is deleted and reported 404,
otherwise the session fields are returned. -/
def getSessionHandler (store : SessionStore) (id : Option String)
    (now : Nat) : GetResult × SessionStore :=
  if ¬ strTruthy id then (.badRequest "Invalid session ID", store)
  else
    match mapGet store (id.getD "") with
    | none => (.notFound "Session not found or expired", store)
    | some s =>
        if s.expiresAt < now then
          (.notFound "Session expired", mapDelete store (id.getD ""))
        else (.ok s.assertion s.expiresAt s.challenge, store)

/-- Outcome of the store-assertion (POST) endpoint. -/
inductive StoreResult where
  | badRequest (error : String)
  | notFound (error : String)
  | conflict (error : String)
  | ok
deriving DecidableEq

/-- HTTP status of a store-assertion outcome. -/
def StoreResult.status : StoreResult → Nat
  | .badRequest _ => 400
  | .notFound _ => 404
  | .conflict _ => 409
  | .ok => 200

/-- The POST branch of src/pages/api/session/[id].ts: 404 on a missing
session, lazy eviction plus 404 on an expired one, 400 on an invalid
assertion body, 409 when `session.assertion` is already truthy, otherwise
the assertion is stored. -/
def storeAssertionHandler (store : SessionStore) (id : Option String)
    (assertion : Option String) (now : Nat) : StoreResult × SessionStore :=
  if ¬ strTruthy id then (.badRequest "Invalid session ID", store)
  else
    match mapGet store (id.getD "") with
    | none => (.notFound "Session not found or expired", store)
    | some s =>
        if s.expiresAt < now then
          (.notFound "Session expired", mapDelete store (id.getD ""))
        else if ¬ strTruthy assertion then
          (.badRequest "Invalid assertion", store)
        else if strTruthy s.assertion then
          (.conflict "Assertion already stored", store)
        else
          (.ok, mapSet store (id.getD "")
            { s with assertion := some (assertion.getD "") })

/-! ### Map lemmas -/

theorem find?_map_replace {α : Type} (k : String) (v : α) :
    ∀ l : List (String × α), l.any (fun e => e.1 == k) = true →
      (l.map (fun e => if e.1 == k then (k, v) else e)).find?
        (fun e => e.1 == k) = some (k, v) := by
  intro l
  induction l with
  | nil => simp
  | cons e rest ih =>
      intro hany
      by_cases he : (e.1 == k) = true
      · rw [List.map_cons, if_pos he,
          List.find?_cons_of_pos _ (by simp)]
      · rw [List.map_cons, if_neg he,
          List.find?_cons_of_neg _ (by simpa using he)]
        apply ih
        simpa [he] using hany

theorem find?_append_of_none {α : Type} (p : α → Bool) (l₁ l₂ : List α)
    (h : l₁.find? p = none) : (l₁ ++ l₂).find? p = l₂.find? p := by
  induction l₁ with
  | nil => simp
  | cons a rest ih =>
      by_cases ha : p a = true
      · rw [List.find?_cons_of_pos _ ha] at h
        exact absurd h (by simp)
      · rw [List.find?_cons_of_neg _ (by simpa using ha)] at h
        rw [List.cons_append, List.find?_cons_of_neg _ (by simpa using ha)]
        exact ih h

theorem mapGet_mapSet_self {α : Type} (store : List (String × α)) (k : String)
    (v : α) : mapGet (mapSet store k v) k = some v := by
  unfold mapGet mapSet
  by_cases hany : store.any (fun e => e.1 == k) = true
  · rw [if_pos hany, find?_map_replace k v store hany, Option.map_some']
  · rw [if_neg hany]
    have hnone : store.find? (fun e => e.1 == k) = none := by
      rw [List.find?_eq_none]
      intro e he hp
      exact hany (List.any_eq_true.mpr ⟨e, he, hp⟩)
    rw [find?_append_of_none _ _ _ hnone,
      List.find?_cons_of_pos _ (by simp), Option.map_some']

theorem mapGet_mapDelete_self {α : Type} (store : List (String × α))
    (k : String) : mapGet (mapDelete store k) k = none := by
  unfold mapGet mapDelete
  rw [Option.map_eq_none', List.find?_eq_none]
  intro e he
  have := List.of_mem_filter he
  simpa using this

/-! ### Claims C2, C3, C7, C10 -/

/-- A store holding `MAX_SESSIONS` sessions, every one of them expired at
time 1 (`expiresAt = 0`). -/
def expiredStore1000 : SessionStore :=
  (List.range 1000).map (fun i =>
    (toString i,
      { challenge := "c", assertion := none, createdAt := 0, expiresAt := 0 }))

/-- C2 counterexample: with 1000 stored sessions that are all already
expired, the live-session count is 0 — far below the maximum — yet
creating a session still fails with the 503 capacity error, because the
handler checks `sessions.size`, which counts expired entries that have not
been removed yet. -/
theorem createSession_capacity_counterexample :
    liveSessionCount expiredStore1000 1 = 0 ∧
    liveSessionCount expiredStore1000 1 < MAX_SESSIONS ∧
    (createSessionHandler expiredStore1000 (some "s") (some "c") 1).1 =
      .serverBusy "Server busy, try again" := by
  set_option maxRecDepth 20000 in
  refine ⟨by decide, by decide, by decide⟩

/-- C2 (amended): creating a session fails with `CapacityError` (503) if
and only if the total number of stored sessions — including expired
entries that have not been removed yet — is at or above `MAX_SESSIONS`;
capacity is freed when expired entries are physically removed, and the
periodic sweep removes exactly the expired ones, after which the stored
count equals the live count. -/
theorem createSession_capacity_total_size (store : SessionStore)
    (sid ch : String) (hsid : sid ≠ "") (hch : ch ≠ "") (now : Nat) :
    ((createSessionHandler store (some sid) (some ch) now).1.status = 503 ↔
      MAX_SESSIONS ≤ mapSize store) ∧
    mapSize (sweepExpiredSessions store now) = liveSessionCount store now := by
  have hts : strTruthy (some sid) = true := by simp [strTruthy, hsid]
  have htc : strTruthy (some ch) = true := by simp [strTruthy, hch]
  constructor
  · by_cases hcap : MAX_SESSIONS ≤ mapSize store
    · simp [createSessionHandler, hts, htc, hcap, CreateResult.status]
    · simp [createSessionHandler, hts, htc, hcap, CreateResult.status]
  · rfl

/-- C2 witness: the amended capacity criterion at the empty store. -/
theorem createSession_capacity_total_size_witness :
    ((createSessionHandler [] (some "a") (some "b") 0).1.status = 503 ↔
      MAX_SESSIONS ≤ mapSize ([] : SessionStore)) ∧
    mapSize (sweepExpiredSessions [] 0) = liveSessionCount [] 0 :=
  createSession_capacity_total_size [] "a" "b" (by decide) (by decide) 0

/-- C3: on a non-expired session whose assertion is still null, the first
store of a valid assertion succeeds and records it; a subsequent store of
a valid assertion on the same non-expired session fails with the 409
conflict and leaves the store unchanged. -/
theorem storeAssertion_write_once (store : SessionStore) (sid : String)
    (s : Session) (a a' : String) (now now' : Nat)
    (hsid : sid ≠ "") (hget : mapGet store sid = some s)
    (hlive : ¬ s.expiresAt < now) (hnull : s.assertion = none)
    (ha : a ≠ "") (ha' : a' ≠ "") (hlive' : ¬ s.expiresAt < now') :
    (storeAssertionHandler store (some sid) (some a) now).1 = .ok ∧
    mapGet (storeAssertionHandler store (some sid) (some a) now).2 sid =
      some { s with assertion := some a } ∧
    (storeAssertionHandler
        (storeAssertionHandler store (some sid) (some a) now).2
        (some sid) (some a') now').1 = .conflict "Assertion already stored" ∧
    (storeAssertionHandler
        (storeAssertionHandler store (some sid) (some a) now).2
        (some sid) (some a') now').2 =
      (storeAssertionHandler store (some sid) (some a) now).2 := by
  have hts : strTruthy (some sid) = true := by simp [strTruthy, hsid]
  have hta : strTruthy (some a) = true := by simp [strTruthy, ha]
  have hta' : strTruthy (some a') = true := by simp [strTruthy, ha']
  have hr1 : storeAssertionHandler store (some sid) (some a) now =
      (.ok, mapSet store sid { s with assertion := some a }) := by
    simp [storeAssertionHandler, hts, hta, hget, hlive, hnull, strTruthy,
      hsid, ha]
  have hget2 : mapGet (mapSet store sid { s with assertion := some a }) sid =
      some { s with assertion := some a } := mapGet_mapSet_self store sid _
  have hr2 : storeAssertionHandler
      (mapSet store sid { s with assertion := some a })
      (some sid) (some a') now' =
      (.conflict "Assertion already stored",
        mapSet store sid { s with assertion := some a }) := by
    simp [storeAssertionHandler, hts, hta', hget2, hlive', strTruthy, ha,
      hsid, ha']
  rw [hr1]
  exact ⟨rfl, hget2, by rw [hr2], by rw [hr2]⟩

/-- A fresh concrete session used by the write-once witness. -/
def sessFresh : Session :=
  { challenge := " C", assertion := none, createdAt := 0, expiresAt := 120000 }

/-- The same session after " A1" has been stored. -/
def sessStored : Session :=
  { challenge := " C", assertion := some " A1", createdAt := 0,
    expiresAt := 120000 }

/-- A one-session store used by the write-once witness. -/
def storeOne : SessionStore := [(" s1", sessFresh)]

/-- C3 witness: the write-once behaviour on a concrete one-session store. -/
theorem storeAssertion_write_once_witness :
    (storeAssertionHandler storeOne (some " s1") (some " A1") 5).1 = .ok ∧
    mapGet (storeAssertionHandler storeOne (some " s1") (some " A1") 5).2
      " s1" = some sessStored ∧
    (storeAssertionHandler
        (storeAssertionHandler storeOne (some " s1") (some " A1") 5).2
        (some " s1") (some " A2") 6).1 =
      .conflict "Assertion already stored" ∧
    (storeAssertionHandler
        (storeAssertionHandler storeOne (some " s1") (some " A1") 5).2
        (some " s1") (some " A2") 6).2 =
      (storeAssertionHandler storeOne (some " s1") (some " A1") 5).2 :=
  storeAssertion_write_once storeOne " s1" sessFresh " A1" " A2" 5 6
    (by decide) rfl (by decide) rfl (by decide) (by decide) (by decide)

/-- C7: a poll returns 404 exactly when the session is absent or its
`expiresAt` has passed; when the expired entry is found it is evicted
before reporting not-found, so it is afterwards absent; a present,
non-expired session is returned unchanged. -/
theorem getSession_notFound_iff (store : SessionStore) (sid : String)
    (now : Nat) (hsid : sid ≠ "") :
    ((getSessionHandler store (some sid) now).1.status = 404 ↔
      mapGet store sid = none ∨
        ∃ s, mapGet store sid = some s ∧ s.expiresAt < now) ∧
    (∀ s, mapGet store sid = some s → s.expiresAt < now →
      (getSessionHandler store (some sid) now).2 = mapDelete store sid ∧
      mapGet (getSessionHandler store (some sid) now).2 sid = none) ∧
    (∀ s, mapGet store sid = some s → ¬ s.expiresAt < now →
      (getSessionHandler store (some sid) now).1 =
        .ok s.assertion s.expiresAt s.challenge ∧
      (getSessionHandler store (some sid) now).2 = store) := by
  have hts : strTruthy (some sid) = true := by simp [strTruthy, hsid]
  cases hget : mapGet store sid with
  | none =>
      refine ⟨?_, ?_, ?_⟩
      · simp [getSessionHandler, hts, hget, GetResult.status]
      · intro s hs
        exact fun _ => absurd hs (by simp)
      · intro s hs
        exact fun _ => absurd hs (by simp)
  | some s =>
      by_cases hexp : s.expiresAt < now
      · have hr : getSessionHandler store (some sid) now =
            (.notFound "Session expired", mapDelete store sid) := by
          simp [getSessionHandler, hts, hget, hexp]
        refine ⟨?_, ?_, ?_⟩
        · rw [hr]
          simp only [GetResult.status]
          exact ⟨fun _ => Or.inr ⟨s, rfl, hexp⟩, fun _ => by trivial⟩
        · intro t ht _
          rw [hr]
          exact ⟨rfl, mapGet_mapDelete_self store sid⟩
        · intro t ht hexp'
          cases ht
          exact absurd hexp hexp'
      · have hr : getSessionHandler store (some sid) now =
            (.ok s.assertion s.expiresAt s.challenge, store) := by
          simp [getSessionHandler, hts, hget, hexp]
        refine ⟨?_, ?_, ?_⟩
        · rw [hr]
          simp only [GetResult.status]
          constructor
          · intro h
            exact absurd h (by decide)
          · rintro (h | ⟨t, ht, hlt⟩)
            · exact absurd h (by simp)
            · cases ht
              exact absurd hlt hexp
        · intro t ht hlt
          cases ht
          exact absurd hlt hexp
        · intro t ht hexp'
          cases ht
          rw [hr]
          exact ⟨rfl, rfl⟩

/-- A concrete session that is expired at time 11. -/
def sessShort : Session :=
  { challenge := " C", assertion := none, createdAt := 0, expiresAt := 10 }

/-- A one-session store whose entry expires at time 10. -/
def storeShort : SessionStore := [(" s1", sessShort)]

/-- C7 witness: the 404 criterion and eviction on a concrete store whose
single session has expired. -/
theorem getSession_notFound_iff_witness :
    ((getSessionHandler storeShort (some " s1") 11).1.status = 404 ↔
      mapGet storeShort " s1" = none ∨
        ∃ s, mapGet storeShort " s1" = some s ∧ s.expiresAt < 11) ∧
    (∀ s, mapGet storeShort " s1" = some s → s.expiresAt < 11 →
      (getSessionHandler storeShort (some " s1") 11).2 =
        mapDelete storeShort " s1" ∧
      mapGet (getSessionHandler storeShort (some " s1") 11).2 " s1" = none) ∧
    (∀ s, mapGet storeShort " s1" = some s → ¬ s.expiresAt < 11 →
      (getSessionHandler storeShort (some " s1") 11).1 =
        .ok s.assertion s.expiresAt s.challenge ∧
      (getSessionHandler storeShort (some " s1") 11).2 = storeShort) :=
  getSession_notFound_iff storeShort " s1" 11 (by decide)

/-- A store holding `MAX_SESSIONS` sessions that are all still live at
time 1 (`expiresAt = 1000000`). -/
def liveStore1000 : SessionStore :=
  (List.range 1000).map (fun i =>
    (toString i,
      { challenge := "c", assertion := none, createdAt := 0,
        expiresAt := 1000000 }))

/-- C10 counterexample: the id "0" is present and not expired, yet a
second create with that id fails with the 503 capacity error, because the
size check fires before the overwriting `sessions.set` even though the
overwrite would not grow the map. -/
theorem createSession_existing_id_counterexample :
    mapGet liveStore1000 "0" =
      some { challenge := "c", assertion := none, createdAt := 0,
             expiresAt := 1000000 } ∧
    ¬ (1000000 : Nat) < 1 ∧
    (createSessionHandler liveStore1000 (some "0") (some "d") 1).1 =
      .serverBusy "Server busy, try again" := by
  set_option maxRecDepth 20000 in
  refine ⟨by decide, by decide, by decide⟩

/-! The two endpoints do not share one map.  The create route
(src/pages/api/session.ts) declares `const sessions = new Map()` at module
level and never registers it anywhere, while the get/store route
(src/pages/api/session/[id].ts) reads and writes `global.sessionStore`
(its "shared session store" comment notwithstanding).  The composition the
program has is therefore over a pair of maps, and a create never touches
the map that `get`/`storeAssertion` consult. -/

/-- The pair of maps the relay endpoints actually use: the create route's
module-local `sessions` map and the `global.sessionStore` map of the
get/store route. -/
structure RelayState where
  createSessions : SessionStore
  globalSessions : SessionStore
deriving DecidableEq

/-- The create endpoint as the program composes it: the handler of
src/pages/api/session.ts runs against its own module-local map; the
global map is untouched. -/
def createEndpoint (st : RelayState) (sessionId challenge : Option String)
    (now : Nat) : CreateResult × RelayState :=
  ((createSessionHandler st.createSessions sessionId challenge now).1,
    { st with createSessions :=
        (createSessionHandler st.createSessions sessionId challenge now).2 })

/-- The store-assertion endpoint as the program composes it: the POST
branch of src/pages/api/session/[id].ts runs against `global.sessionStore`;
the create route's map is untouched. -/
def storeAssertionEndpoint (st : RelayState) (id assertion : Option String)
    (now : Nat) : StoreResult × RelayState :=
  ((storeAssertionHandler st.globalSessions id assertion now).1,
    { st with globalSessions :=
        (storeAssertionHandler st.globalSessions id assertion now).2 })

/-- C10 (amended): when the create route's module-local store is below
`MAX_SESSIONS`, a create on an id that is present and non-expired there
does not fail: it replaces that store's entry with a fresh session
(`assertion = null`, `expiresAt = now + SESSION_TTL`).  But the create
route writes a module-local map distinct from the `global.sessionStore`
map that `storeAssertion` reads, so a create does not reset the session
`storeAssertion` sees: after `storeAssertion(id, A)` has succeeded, the
sequence `create(id, C2); storeAssertion(id, A2)` fails with
`ConflictError` (409) and leaves the state unchanged — the write-once
property of the assertion field holds across creates of the same id. -/
theorem createSession_overwrite_separate_stores (st : RelayState)
    (sid ch a a2 : String) (s g : Session) (t₁ t₂ t₃ : Nat)
    (hgetg : mapGet st.globalSessions sid = some g)
    (hgnull : g.assertion = none)
    (hliveg1 : ¬ g.expiresAt < t₁) (hliveg3 : ¬ g.expiresAt < t₃)
    (hgetc : mapGet st.createSessions sid = some s)
    (hlivec : ¬ s.expiresAt < t₂)
    (hcap : mapSize st.createSessions < MAX_SESSIONS)
    (hsid : sid ≠ "") (hch : ch ≠ "") (ha : a ≠ "") (ha2 : a2 ≠ "") :
    (storeAssertionEndpoint st (some sid) (some a) t₁).1 = .ok ∧
    (createEndpoint (storeAssertionEndpoint st (some sid) (some a) t₁).2
      (some sid) (some ch) t₂).1 = .ok (SESSION_TTL / 1000) ∧
    mapGet (createEndpoint (storeAssertionEndpoint st (some sid) (some a)
        t₁).2 (some sid) (some ch) t₂).2.createSessions sid =
      some { challenge := ch, assertion := none, createdAt := t₂,
             expiresAt := t₂ + SESSION_TTL } ∧
    (createEndpoint (storeAssertionEndpoint st (some sid) (some a) t₁).2
      (some sid) (some ch) t₂).2.globalSessions =
      (storeAssertionEndpoint st (some sid) (some a) t₁).2.globalSessions ∧
    (storeAssertionEndpoint
      (createEndpoint (storeAssertionEndpoint st (some sid) (some a) t₁).2
        (some sid) (some ch) t₂).2 (some sid) (some a2) t₃).1 =
      .conflict "Assertion already stored" ∧
    (storeAssertionEndpoint
      (createEndpoint (storeAssertionEndpoint st (some sid) (some a) t₁).2
        (some sid) (some ch) t₂).2 (some sid) (some a2) t₃).2 =
      (createEndpoint (storeAssertionEndpoint st (some sid) (some a) t₁).2
        (some sid) (some ch) t₂).2 := by
  have hts : strTruthy (some sid) = true := by simp [strTruthy, hsid]
  have htc : strTruthy (some ch) = true := by simp [strTruthy, hch]
  have hta : strTruthy (some a) = true := by simp [strTruthy, ha]
  have hta2 : strTruthy (some a2) = true := by simp [strTruthy, ha2]
  have hnocap : ¬ MAX_SESSIONS ≤ mapSize st.createSessions := by omega
  have hstore1 : storeAssertionHandler st.globalSessions (some sid) (some a)
      t₁ = (.ok, mapSet st.globalSessions sid { g with assertion := some a }) := by
    simp [storeAssertionHandler, hts, hta, hgetg, hliveg1, hgnull, strTruthy,
      hsid, ha]
  have hcreate : createSessionHandler st.createSessions (some sid) (some ch)
      t₂ =
      (.ok (SESSION_TTL / 1000),
        mapSet st.createSessions sid
          { challenge := ch, assertion := none, createdAt := t₂,
            expiresAt := t₂ + SESSION_TTL }) := by
    simp [createSessionHandler, hts, htc, hnocap]
  have hst1 : (storeAssertionEndpoint st (some sid) (some a) t₁).2 =
      { createSessions := st.createSessions,
        globalSessions :=
          mapSet st.globalSessions sid { g with assertion := some a } } := by
    unfold storeAssertionEndpoint
    rw [hstore1]
  have hst2 : (createEndpoint (storeAssertionEndpoint st (some sid) (some a)
      t₁).2 (some sid) (some ch) t₂).2 =
      { createSessions :=
          mapSet st.createSessions sid
            { challenge := ch, assertion := none, createdAt := t₂,
              expiresAt := t₂ + SESSION_TTL },
        globalSessions :=
          mapSet st.globalSessions sid { g with assertion := some a } } := by
    rw [hst1]
    unfold createEndpoint
    simp only [hcreate]
  have hgetg2 : mapGet (mapSet st.globalSessions sid
      { g with assertion := some a }) sid =
      some { g with assertion := some a } :=
    mapGet_mapSet_self st.globalSessions sid _
  have hstore2 : storeAssertionHandler
      (mapSet st.globalSessions sid { g with assertion := some a })
      (some sid) (some a2) t₃ =
      (.conflict "Assertion already stored",
        mapSet st.globalSessions sid { g with assertion := some a }) := by
    simp [storeAssertionHandler, hts, hta2, hgetg2, hliveg3, strTruthy,
      hsid, ha, ha2]
  refine ⟨?_, ?_, ?_, ?_, ?_, ?_⟩
  · unfold storeAssertionEndpoint
    rw [hstore1]
  · rw [hst1]
    unfold createEndpoint
    simp only [hcreate]
  · rw [hst2]
    exact mapGet_mapSet_self st.createSessions sid _
  · rw [hst2, hst1]
  · rw [hst2]
    unfold storeAssertionEndpoint
    simp only [hstore2]
  · rw [hst2]
    unfold storeAssertionEndpoint
    simp only [hstore2]

/-- The session the create at time 5 writes into its own module-local
map. -/
def sessRecreated : Session :=
  { challenge := " C2", assertion := none, createdAt := 5,
    expiresAt := 5 + SESSION_TTL }

/-- A concrete relay state: both maps hold the fresh session under
" s1". -/
def relayStateW : RelayState :=
  { createSessions := storeOne, globalSessions := storeOne }

/-- C10 witness: the store-create-store sequence at a concrete relay
state — the first store succeeds, the create succeeds and rewrites only
its own map, and the second store still conflicts. -/
theorem createSession_overwrite_separate_stores_witness :
    (storeAssertionEndpoint relayStateW (some " s1") (some " A1") 4).1 =
      .ok ∧
    (createEndpoint (storeAssertionEndpoint relayStateW (some " s1")
      (some " A1") 4).2 (some " s1") (some " C2") 5).1 =
      .ok (SESSION_TTL / 1000) ∧
    mapGet (createEndpoint (storeAssertionEndpoint relayStateW (some " s1")
      (some " A1") 4).2 (some " s1") (some " C2") 5).2.createSessions
      " s1" = some sessRecreated ∧
    (createEndpoint (storeAssertionEndpoint relayStateW (some " s1")
      (some " A1") 4).2 (some " s1") (some " C2") 5).2.globalSessions =
      (storeAssertionEndpoint relayStateW (some " s1") (some " A1")
        4).2.globalSessions ∧
    (storeAssertionEndpoint
      (createEndpoint (storeAssertionEndpoint relayStateW (some " s1")
        (some " A1") 4).2 (some " s1") (some " C2") 5).2
      (some " s1") (some " A2") 6).1 = .conflict "Assertion already stored" ∧
    (storeAssertionEndpoint
      (createEndpoint (storeAssertionEndpoint relayStateW (some " s1")
        (some " A1") 4).2 (some " s1") (some " C2") 5).2
      (some " s1") (some " A2") 6).2 =
      (createEndpoint (storeAssertionEndpoint relayStateW (some " s1")
        (some " A1") 4).2 (some " s1") (some " C2") 5).2 :=
  createSession_overwrite_separate_stores relayStateW " s1" " C2" " A1"
    " A2" sessFresh sessFresh 4 5 6 rfl rfl (by decide) (by decide) rfl
    (by decide) (by decide) (by decide) (by decide) (by decide) (by decide)

/-! ## Backup export/import (src/lib/indexeddb.ts, src/app/page.tsx)

Backups that already parsed as JSON objects of the right shape are the
`BackupData` structure; the remaining Zod constraint
(`iterations: z.number().min(100000)`) is `backupSchemaOk`.  The
IndexedDB state visible to import is `DBState` (the `masterKey` singleton
store and the `notes` table keyed by id).  `handleImportBackup` is
the import flow of src/app/page.tsx: `validateBackup` first, and only on
success `importBackup(data, true)`. -/

/-- `MasterKeyData` from src/lib/indexeddb.ts. -/
structure MasterKeyData where
  wrappedKey : String
  salt : String
  iv : String
  iterations : Nat
deriving DecidableEq

/-- `Note` from src/lib/indexeddb.ts. -/
structure BackupNote where
  id : String
  ciphertext : String
  iv : String
  createdAt : Nat
  updatedAt : Nat
  title : Option String
deriving DecidableEq

/-- `BackupData` from src/lib/indexeddb.ts. -/
structure BackupData where
  version : Int
  masterKeyData : Option MasterKeyData
  notes : List BackupNote
  exportedAt : Int
deriving DecidableEq

/-- The `MasterKeyDataSchema` minimum-iterations constraint. -/
def masterKeyDataSchemaOk (m : MasterKeyData) : Bool := 100000 ≤ m.iterations

/-- The `BackupDataSchema` constraints beyond the structural typing that
`BackupData` already carries. -/
def backupSchemaOk (b : BackupData) : Bool :=
  match b.masterKeyData with
  | some m => masterKeyDataSchemaOk m
  | none => true

/-- The `{ valid, reason? }` result of `validateBackup`. -/
structure ValidationResult where
  valid : Bool
  reason : Option String
deriving DecidableEq

/-- `validateBackup` from src/lib/indexeddb.ts: schema check, version
check, then the salt comparison against the current master-key record. -/
def validateBackup (b : BackupData) (currentKeyData : Option MasterKeyData) :
    ValidationResult :=
  if ¬ backupSchemaOk b then
    { valid := false, reason := some "Invalid backup file format" }
  else if b.version ≠ 1 then
    { valid := false,
      reason := some ("Unsupported backup version: " ++ toString b.version) }
  else
    match currentKeyData, b.masterKeyData with
    | some cur, some bk =>
        if cur.salt ≠ bk.salt then
          { valid := false,
            reason := some "Keystore mismatch: This backup was created with a different master key/password and cannot be merged." }
        else { valid := true, reason := none }
    | _, _ => { valid := true, reason := none }

/-- The IndexedDB state touched by import: the `masterKey` singleton and
the `notes` table keyed by note id. -/
structure DBState where
  masterKey : Option MasterKeyData
  notes : List (String × BackupNote)
deriving DecidableEq

/-- `importBackup` from src/lib/indexeddb.ts: `BackupDataSchema.parse`
(throws on violation), version check (throws), then save the master-key
record if present, clear notes unless merging, and `saveNote` each backup
note. -/
def importBackup (b : BackupData) (mergeNotes : Bool) (st : DBState) :
    Except String DBState :=
  if ¬ backupSchemaOk b then .error "Invalid backup data"
  else if b.version ≠ 1 then
    .error ("Unsupported backup version: " ++ toString b.version)
  else
    let st1 : DBState :=
      match b.masterKeyData with
      | some mk => { st with masterKey := some mk }
      | none => st
    let st2 : DBState := if ¬ mergeNotes then { st1 with notes := [] } else st1
    .ok { st2 with
            notes := b.notes.foldl (fun ns n => mapSet ns n.id n) st2.notes }

/-- Outcome of the import flow of src/app/page.tsx. -/
inductive ImportResult where
  | rejected (reason : String)
  | imported
  | failed
deriving DecidableEq

/-- The import flow of src/app/page.tsx (`handleImport`): validate first;
on a validation failure report the reason and import nothing; otherwise
run `importBackup(data, true)`. -/
def handleImportBackup (b : BackupData) (st : DBState) :
    ImportResult × DBState :=
  let v := validateBackup b st.masterKey
  if v.valid then
    match importBackup b true st with
    | .ok st2 => (.imported, st2)
    | .error _ => (.failed, st)
  else (.rejected (v.reason.getD ""), st)

/-! ### Claim C4 -/

/-- C4: the import flow rejects any backup whose version is not 1 (at both
layers: `importBackup` itself throws, and the flow already stops at
validation), and when a master-key record exists locally, the backup also
carries one, and the salts differ, the flow reports the descriptive
keystore-mismatch conflict and leaves the database state unchanged. -/
theorem importBackup_rejects_version_and_salt (b : BackupData) (st : DBState) :
    (b.version ≠ 1 → ∀ mergeNotes,
      (∃ e, importBackup b mergeNotes st = .error e) ∧
      (∃ r, handleImportBackup b st = (.rejected r, st))) ∧
    (∀ cur bk, st.masterKey = some cur → b.masterKeyData = some bk →
      cur.salt ≠ bk.salt → b.version = 1 → backupSchemaOk b = true →
      handleImportBackup b st =
        (.rejected "Keystore mismatch: This backup was created with a different master key/password and cannot be merged.", st)) := by
  constructor
  · intro hv mergeNotes
    constructor
    · by_cases hs : backupSchemaOk b = true
      · refine ⟨"Unsupported backup version: " ++ toString b.version, ?_⟩
        simp [importBackup, hs, hv]
      · refine ⟨"Invalid backup data", ?_⟩
        simp [importBackup, hs]
    · by_cases hs : backupSchemaOk b = true
      · refine ⟨"Unsupported backup version: " ++ toString b.version, ?_⟩
        simp [handleImportBackup, validateBackup, hs, hv]
      · refine ⟨"Invalid backup file format", ?_⟩
        simp [handleImportBackup, validateBackup, hs]
  · intro cur bk hcur hbk hsalt hv hs
    simp [handleImportBackup, validateBackup, hs, hv, hcur, hbk, hsalt]

/-- A concrete local master-key record. -/
def mkRecordLocal : MasterKeyData :=
  { wrappedKey := " w", salt := " s1", iv := " i", iterations := 200000 }

/-- A concrete backup master-key record with a different salt. -/
def mkRecordForeign : MasterKeyData :=
  { wrappedKey := " w2", salt := " s2", iv := " i2", iterations := 200000 }

/-- A concrete database state owning `mkRecordLocal`. -/
def dbStateLocal : DBState := { masterKey := some mkRecordLocal, notes := [] }

/-- A version-2 backup. -/
def backupV2 : BackupData :=
  { version := 2, masterKeyData := none, notes := [], exportedAt := 0 }

/-- A version-1 backup carrying `mkRecordForeign`. -/
def backupForeign : BackupData :=
  { version := 1, masterKeyData := some mkRecordForeign, notes := [],
    exportedAt := 0 }

/-- C4 witness: the rejection theorem applied to a concrete version-2
backup and to a concrete salt-mismatched backup. -/
theorem importBackup_rejects_version_and_salt_witness :
    ((∃ e, importBackup backupV2 true dbStateLocal = .error e) ∧
      (∃ r, handleImportBackup backupV2 dbStateLocal = (.rejected r,
        dbStateLocal))) ∧
    handleImportBackup backupForeign dbStateLocal =
      (.rejected "Keystore mismatch: This backup was created with a different master key/password and cannot be merged.", dbStateLocal) :=
  ⟨(importBackup_rejects_version_and_salt backupV2 dbStateLocal).1
      (by decide) true,
    (importBackup_rejects_version_and_salt backupForeign dbStateLocal).2
      mkRecordLocal mkRecordForeign rfl rfl (by decide) rfl (by decide)⟩

/-! ## WebAuthn assertion verification (src/lib/webauthn.ts)

`verifyAssertion` runs inside one `try`/`catch` whose `catch` returns
`false`.  The body is `verifyAssertionExc`, with every throwing operation
modelled in `Except Unit`: a failed base64url decode, a missing optional
response field (the JavaScript code would call string methods on
`undefined`), a `JSON.parse` failure, a key that imports neither as ECDSA
P-256 nor as RSA SPKI, and — decisive for C1 — the final
`crypto.subtle.verify` call, which names `ECDSA` unconditionally and is
therefore rejected by Web Crypto whenever the imported key is an RSA key.
`parseClientData` stands for `TextDecoder` plus `JSON.parse` plus field
access (`none` fields model absent or non-string JSON members);
`sha256`, `ecdsaVerify` and the two SPKI parsers stand for the Web Crypto
primitives. -/

/-- The fields of a serialized assertion response the verifier reads.
`authenticatorData` and `signature` are optional in the source interface. -/
structure AssertionResponse where
  clientDataJSON : String
  authenticatorData : Option String
  signature : Option String
deriving DecidableEq

/-- The client data fields read after `JSON.parse`; `none` models an
absent or non-string member. -/
structure ClientData where
  challenge : Option String
  origin : Option String
  ctype : Option String
deriving DecidableEq

/-- A key imported by `importPublicKey`: either family. -/
inductive ImportedKey (EK RK : Type) where
  | ec (k : EK)
  | rsa (k : RK)

/-- `importPublicKey` from src/lib/webauthn.ts: try an ECDSA P-256 SPKI
key first, fall back to RSASSA-PKCS1-v1_5; `none` when both reject. -/
def importPublicKey {EK RK : Type} (parseEcSpki : List Nat → Option EK)
    (parseRsaSpki : List Nat → Option RK) (spkiBytes : List Nat) :
    Option (ImportedKey EK RK) :=
  match parseEcSpki spkiBytes with
  | some k => some (.ec k)
  | none => (parseRsaSpki spkiBytes).map .rsa

/-- `arrayBuffersEqual` from src/lib/webauthn.ts: length check then an
element-by-element loop. -/
def arrayBuffersEqual (a b : List Nat) : Bool :=
  a.length == b.length && (List.zip a b).all (fun p => p.1 == p.2)

/-- The `try` body of `verifyAssertion`: deserialize, parse client data,
compare challenge, origin and type in order with short-circuit `false`,
rebuild the signed payload `authenticatorData ++ SHA-256(clientDataJSON)`,
load the stored key, and call `crypto.subtle.verify` under the name
`ECDSA` — which throws (`.error`) when the key imported as RSA. -/
def verifyAssertionExc {EK RK : Type} (parseEcSpki : List Nat → Option EK)
    (parseRsaSpki : List Nat → Option RK)
    (ecdsaVerify : EK → List Nat → List Nat → Bool)
    (sha256 : List Nat → List Nat) (windowOrigin : String)
    (parseClientData : List Nat → Option ClientData)
    (a : AssertionResponse) (publicKeyBytes : String)
    (expectedChallenge : List Nat) : Except Unit Bool :=
  match base64urlDecode a.clientDataJSON with
  | none => .error ()
  | some clientDataBytes =>
  match a.authenticatorData with
  | none => .error ()
  | some adStr =>
  match base64urlDecode adStr with
  | none => .error ()
  | some authData =>
  match a.signature with
  | none => .error ()
  | some sigStr =>
  match base64urlDecode sigStr with
  | none => .error ()
  | some signature =>
  match parseClientData clientDataBytes with
  | none => .error ()
  | some clientData =>
  match clientData.challenge with
  | none => .error ()
  | some chStr =>
  match base64urlDecode chStr with
  | none => .error ()
  | some receivedChallenge =>
  if ¬ arrayBuffersEqual receivedChallenge expectedChallenge then .ok false
  else if clientData.origin ≠ some windowOrigin then .ok false
  else if clientData.ctype ≠ some "webauthn.get" then .ok false
  else
    match base64urlDecode publicKeyBytes with
    | none => .error ()
    | some spki =>
    match importPublicKey parseEcSpki parseRsaSpki spki with
    | none => .error ()
    | some (.ec k) =>
        .ok (ecdsaVerify k signature (authData ++ sha256 clientDataBytes))
    | some (.rsa _) => .error ()

/-- `verifyAssertion` from src/lib/webauthn.ts: the `try` body with the
`catch` that converts every thrown error into `false`. -/
def verifyAssertion {EK RK : Type} (parseEcSpki : List Nat → Option EK)
    (parseRsaSpki : List Nat → Option RK)
    (ecdsaVerify : EK → List Nat → List Nat → Bool)
    (sha256 : List Nat → List Nat) (windowOrigin : String)
    (parseClientData : List Nat → Option ClientData)
    (a : AssertionResponse) (publicKeyBytes : String)
    (expectedChallenge : List Nat) : Bool :=
  match verifyAssertionExc parseEcSpki parseRsaSpki ecdsaVerify sha256
      windowOrigin parseClientData a publicKeyBytes expectedChallenge with
  | .ok b => b
  | .error _ => false

/-! ### Claims C1 and C8 -/

/-- C1: whenever the stored public key imports as an RSA key (the ECDSA
SPKI parse rejects, the RSA one accepts), `verifyAssertion` returns
`false` for every assertion and challenge — the signature is never checked
with the RSA algorithm family, because the `crypto.subtle.verify` call
names `ECDSA` unconditionally and Web Crypto rejects the mismatched key.
A validly RSA-signed assertion therefore fails instead of verifying. -/
theorem verifyAssertion_rsaKey_false {EK RK : Type}
    (parseEcSpki : List Nat → Option EK) (parseRsaSpki : List Nat → Option RK)
    (ecdsaVerify : EK → List Nat → List Nat → Bool)
    (sha256 : List Nat → List Nat) (windowOrigin : String)
    (parseClientData : List Nat → Option ClientData)
    (a : AssertionResponse) (publicKeyBytes : String)
    (expectedChallenge : List Nat) (spki : List Nat) (rk : RK)
    (hdec : base64urlDecode publicKeyBytes = some spki)
    (hec : parseEcSpki spki = none) (hrsa : parseRsaSpki spki = some rk) :
    verifyAssertion parseEcSpki parseRsaSpki ecdsaVerify sha256 windowOrigin
      parseClientData a publicKeyBytes expectedChallenge = false := by
  have hexc : verifyAssertionExc parseEcSpki parseRsaSpki ecdsaVerify sha256
      windowOrigin parseClientData a publicKeyBytes expectedChallenge =
        .ok false ∨
      verifyAssertionExc parseEcSpki parseRsaSpki ecdsaVerify sha256
      windowOrigin parseClientData a publicKeyBytes expectedChallenge =
        .error () := by
    unfold verifyAssertionExc
    simp only [hdec, importPublicKey, hec, hrsa, Option.map_some']
    repeat' split
    all_goals simp
  unfold verifyAssertion
  rcases hexc with h | h <;> rw [h]

/-- C1 witness: the RSA-key theorem at a concrete instance (a parser pair
that accepts only RSA). -/
theorem verifyAssertion_rsaKey_false_witness :
    @verifyAssertion Unit Unit (fun _ => none)
      (fun _ => some ()) (fun _ _ _ => true) (fun _ => []) " o"
      (fun _ => some { challenge := some "", origin := some " o",
                       ctype := some "webauthn.get" })
      { clientDataJSON := "", authenticatorData := some "",
        signature := some "" } "AA" [] = false :=
  verifyAssertion_rsaKey_false (fun _ => none) (fun _ => some ())
    (fun _ _ _ => true) (fun _ => []) " o"
    (fun _ => some { challenge := some "", origin := some " o",
                     ctype := some "webauthn.get" })
    { clientDataJSON := "", authenticatorData := some "",
      signature := some "" } "AA" [] [0] ()
    (by decide) rfl rfl

/-- C8: `verifyAssertion` is fail-closed and total: a malformed base64url
`clientDataJSON`, an unparsable client-data JSON, a missing
`authenticatorData` field, and a key that imports as neither family each
yield `false`; in general the catch converts every thrown error into
`false` and passes a returned boolean through unchanged. -/
theorem verifyAssertion_fail_closed {EK RK : Type}
    (parseEcSpki : List Nat → Option EK) (parseRsaSpki : List Nat → Option RK)
    (ecdsaVerify : EK → List Nat → List Nat → Bool)
    (sha256 : List Nat → List Nat) (windowOrigin : String)
    (parseClientData : List Nat → Option ClientData)
    (a : AssertionResponse) (publicKeyBytes : String)
    (expectedChallenge : List Nat) :
    (base64urlDecode a.clientDataJSON = none →
      verifyAssertion parseEcSpki parseRsaSpki ecdsaVerify sha256 windowOrigin
        parseClientData a publicKeyBytes expectedChallenge = false) ∧
    (∀ cb, base64urlDecode a.clientDataJSON = some cb →
      parseClientData cb = none →
      verifyAssertion parseEcSpki parseRsaSpki ecdsaVerify sha256 windowOrigin
        parseClientData a publicKeyBytes expectedChallenge = false) ∧
    (a.authenticatorData = none →
      verifyAssertion parseEcSpki parseRsaSpki ecdsaVerify sha256 windowOrigin
        parseClientData a publicKeyBytes expectedChallenge = false) ∧
    (∀ spki, base64urlDecode publicKeyBytes = some spki →
      parseEcSpki spki = none → parseRsaSpki spki = none →
      verifyAssertion parseEcSpki parseRsaSpki ecdsaVerify sha256 windowOrigin
        parseClientData a publicKeyBytes expectedChallenge = false) ∧
    (verifyAssertionExc parseEcSpki parseRsaSpki ecdsaVerify sha256
        windowOrigin parseClientData a publicKeyBytes expectedChallenge =
        .error () →
      verifyAssertion parseEcSpki parseRsaSpki ecdsaVerify sha256 windowOrigin
        parseClientData a publicKeyBytes expectedChallenge = false) ∧
    (∀ b, verifyAssertionExc parseEcSpki parseRsaSpki ecdsaVerify sha256
        windowOrigin parseClientData a publicKeyBytes expectedChallenge =
        .ok b →
      verifyAssertion parseEcSpki parseRsaSpki ecdsaVerify sha256 windowOrigin
        parseClientData a publicKeyBytes expectedChallenge = b) := by
  have hfold : ∀ e : Except Unit Bool,
      verifyAssertionExc parseEcSpki parseRsaSpki ecdsaVerify sha256
        windowOrigin parseClientData a publicKeyBytes expectedChallenge = e →
      (e = .ok false ∨ e = .error ()) →
      verifyAssertion parseEcSpki parseRsaSpki ecdsaVerify sha256 windowOrigin
        parseClientData a publicKeyBytes expectedChallenge = false := by
    intro e he hd
    unfold verifyAssertion
    rcases hd with rfl | rfl <;> rw [he]
  refine ⟨?_, ?_, ?_, ?_, ?_, ?_⟩
  · intro h
    refine hfold _ rfl ?_
    unfold verifyAssertionExc
    simp [h]
  · intro cb hcb hpc
    refine hfold _ rfl ?_
    unfold verifyAssertionExc
    simp only [hcb, hpc]
    repeat' split
    all_goals simp
  · intro h
    refine hfold _ rfl ?_
    unfold verifyAssertionExc
    simp only [h]
    repeat' split
    all_goals simp
  · intro spki hdec hec hrsa
    refine hfold _ rfl ?_
    unfold verifyAssertionExc
    simp only [hdec, importPublicKey, hec, hrsa, Option.map_none']
    repeat' split
    all_goals simp
  · intro h
    unfold verifyAssertion
    rw [h]
  · intro b h
    unfold verifyAssertion
    rw [h]

/-- C8 witness: the fail-closed theorem at a concrete instance whose
`clientDataJSON` is not valid base64url (a lone `!`). -/
theorem verifyAssertion_fail_closed_witness :
    base64urlDecode "!" = none ∧
    @verifyAssertion Unit Unit (fun _ => none) (fun _ => none)
      (fun _ _ _ => true) (fun _ => []) " o" (fun _ => none)
      { clientDataJSON := "!", authenticatorData := none, signature := none }
      " pk" [] = false :=
  ⟨by decide,
    (verifyAssertion_fail_closed (fun _ => none) (fun _ => none)
      (fun _ _ _ => true) (fun _ => []) " o" (fun _ => none)
      { clientDataJSON := "!", authenticatorData := none, signature := none }
      " pk" []).1 (by decide)⟩

end HmmNotes
